import Mathlib

/-!
Verification of the simulation orchestrator in `blochain-simulator.py`.

The endpoint `simulate` is modelled as a pure function of:
  * the signing credential read from the environment at startup
    (`PRIVATE_KEY`, an `Option String`: `none` models an unset variable);
  * the parsed request body (`Option JVal`: `none` models a body that the
    framework could not parse as JSON, which raises inside the handler's
    `try` block);
  * a command-executor oracle `exec` mapping an argument vector to the
    result of `subprocess.run` (exit 0 with stdout, non-zero exit with
    stderr, timeout, or missing binary);
  * a JSON-parse oracle `parse` modelling `json.loads` on captured stdout.

The function returns the HTTP status, a structured response body, and the
ordered trace of external commands actually handed to `subprocess.run`
(used to state the "no command is invoked" / "earlier items already
executed" properties).
-/

namespace BlockchainSimulator

/-- JSON values, as produced by `json.loads` / contained in a parsed request
body. -/
inductive JVal where
  | jnull : JVal
  | jbool : Bool → JVal
  | jnum : Int → JVal
  | jstr : String → JVal
  | jarr : List JVal → JVal
  | jobj : List (String × JVal) → JVal

/-- Key lookup in a JSON object (Python `dict` access; keys are unique in a
parsed JSON object, so first match suffices). -/
def lookupField : List (String × JVal) → String → Option JVal
  | [], _ => none
  | (k, v) :: rest, key => if k == key then some v else lookupField rest key

/-- Python truthiness of a JSON value (`if not bytecode`, `if tx['args']`). -/
def truthy : JVal → Bool
  | .jnull => false
  | .jbool b => b
  | .jnum n => n != 0
  | .jstr s => !(s == "")
  | .jarr xs => !xs.isEmpty
  | .jobj fs => !fs.isEmpty

/-- Whether a Python value is a `dict` (`isinstance(tx, dict)`). -/
def isDict : JVal → Bool
  | .jobj _ => true
  | _ => false

/-- Exceptions that can be raised inside the handler's `try` block. -/
inductive PyExn where
  | badRequest : PyExn
  | attributeError : PyExn
  | typeError : PyExn
  | keyError : String → PyExn
  | jsonDecodeError : PyExn
  | timeoutExpired : PyExn
  | fileNotFoundError : PyExn
  | calledProcessError : String → PyExn

/-- Rendering `str(e)` for the 500 response's `details` field. The exact
Python texts are abstracted; no control flow in the handler inspects them. -/
def exnStr : PyExn → String
  | .badRequest => "400 Bad Request"
  | .attributeError => "AttributeError"
  | .typeError => "TypeError"
  | .keyError k => "KeyError: " ++ k
  | .jsonDecodeError => "JSONDecodeError"
  | .timeoutExpired => "TimeoutExpired"
  | .fileNotFoundError => "FileNotFoundError"
  | .calledProcessError s => s

/-- Result of one `subprocess.run(cmd, capture_output=True, check=True,
timeout=30)` invocation, as seen by the caller. -/
inductive ExecResult where
  | exitOk : String → ExecResult
  | exitNonZero : String → ExecResult
  | timedOut : ExecResult
  | fileNotFound : ExecResult

/-- Python `str.strip()` on captured stderr. -/
def pystrip (s : String) : String := s.trim

/-- An argument handed to `subprocess.run` must be a string; anything else
raises `TypeError` inside `run` (before the process is spawned). -/
def asCmdArg : JVal → Option String
  | .jstr s => some s
  | _ => none

/-- Stringify a whole argument vector, failing like `subprocess.run` does on
the first non-string element. -/
def toStrings : List JVal → Option (List String)
  | [] => some []
  | v :: rest =>
    match asCmdArg v, toStrings rest with
    | some s, some ss => some (s :: ss)
    | _, _ => none

/-- One `subprocess.run(..., check=True, timeout=30)` call: the exception or
stdout it produces, together with the commands actually invoked (empty when
the argument vector does not stringify, since `run` raises before spawning). -/
def runSub (exec : List String → ExecResult) (cmd : List JVal) :
    Except PyExn String × List (List String) :=
  match toStrings cmd with
  | none => (.error .typeError, [])
  | some scmd =>
    match exec scmd with
    | .exitOk out => (.ok out, [scmd])
    | .exitNonZero err => (.error (.calledProcessError err), [scmd])
    | .timedOut => (.error .timeoutExpired, [scmd])
    | .fileNotFound => (.error .fileNotFoundError, [scmd])

/-- Python subscript `d[key]` on a JSON value: `KeyError` on a dict missing
the key, `TypeError` on any non-dict JSON value subscripted with a string. -/
def pyIndex : JVal → String → Except PyExn JVal
  | .jobj fs, key =>
    match lookupField fs key with
    | some v => .ok v
    | none => .error (.keyError key)
  | _, _ => .error .typeError

/-- `d.get(key)` on a value known to be a dict; `none` elsewhere. -/
def jsonGet (v : JVal) (key : String) : Option JVal :=
  match v with
  | .jobj fs => lookupField fs key
  | _ => none

/-- Python iteration `for i, tx in enumerate(transactions)` over a JSON
value: lists yield elements, strings yield one-character strings, dicts
yield their keys; other values raise `TypeError`. -/
def pyIter : JVal → Except PyExn (List JVal)
  | .jarr xs => .ok xs
  | .jstr s => .ok (s.data.map fun c => .jstr (String.mk [c]))
  | .jobj fs => .ok (fs.map fun kv => .jstr kv.1)
  | _ => .error .typeError

/-- Per-transaction outcome appended to `simulation_results['outcomes']`:
either `{transaction, status: "success", tx_hash}` or
`{transaction, status: "failed", error_details}`. -/
inductive Outcome where
  | success : JVal → JVal → Outcome
  | failed : JVal → String → Outcome

/-- The `transaction` field of an outcome. -/
def Outcome.transaction : Outcome → JVal
  | .success tx _ => tx
  | .failed tx _ => tx

/-- The `status` field of an outcome. -/
def Outcome.statusStr : Outcome → String
  | .success _ _ => "success"
  | .failed _ _ => "failed"

/-- The `error_details` field of an outcome, when present. -/
def Outcome.errorInfo : Outcome → Option String
  | .success _ _ => none
  | .failed _ e => some e

/-- A response body as assembled by the handler before `jsonify`. -/
inductive RespBody where
  | err : String → RespBody
  | errWith : String → String → RespBody
  | report : Option JVal → JVal → List Outcome → RespBody

/-- Whether the body carries an `outcomes` field at all. -/
def RespBody.hasOutcomes : RespBody → Bool
  | .report _ _ _ => true
  | _ => false

/-- The `outcomes` list of a report body (empty on error bodies, which have
no such field). -/
def RespBody.outcomes : RespBody → List Outcome
  | .report _ _ os => os
  | _ => []

/-- The `details` field of an error body, when present. -/
def RespBody.details : RespBody → Option String
  | .errWith _ d => some d
  | _ => none

/-- A completed request: HTTP status, response body, and the ordered trace
of argument vectors handed to `subprocess.run`. -/
structure SimResult where
  status : Nat
  body : RespBody
  trace : List (List String)

/-- Fixed local RPC endpoint of the anvil node. -/
def RPC_URL : String := "http://127.0.0.1:8545"

/-- Message of the 500 response when `FOUNDRY_PRIVATE_KEY` is unset. -/
def pkMissingMsg : String := "Server configuration error: Private key not set."

/-- Message of the 400 response when `bytecode` is missing or falsy. -/
def missingBytecodeMsg : String := "Invalid payload: \x27bytecode\x27 key is missing."

/-- Error text of the 400 deployment-failure response. -/
def deployFailedMsg : String := "Contract deployment failed."

/-- Error text of the generic 500 response. -/
def internalErrMsg : String := "An internal server error occurred."

/-- The f-string `"Invalid format for transaction at index {i}."`. -/
def invalidIndexMsg (i : Nat) : String :=
  "Invalid format for transaction at index " ++ Nat.repr i ++ "."

/-- The `deploy_cmd` list literal, before subprocess stringification: all
options first, then `--create`, then the bytecode payload. -/
def deployCmd (pk : String) (bytecode : JVal) : List JVal :=
  [.jstr "cast", .jstr "send", .jstr "--private-key", .jstr pk,
   .jstr "--rpc-url", .jstr RPC_URL, .jstr "--json", .jstr "--create", bytecode]

/-- The stringified deployment command for a string bytecode payload. -/
def deployStrs (pk bc : String) : List String :=
  ["cast", "send", "--private-key", pk, "--rpc-url", RPC_URL, "--json", "--create", bc]

/-- `tx['function_signature']` on a validated transaction dict. -/
def txSig (tx : JVal) : JVal :=
  match tx with
  | .jobj fs => (lookupField fs "function_signature").getD .jnull
  | _ => .jnull

/-- `tx['args']` on a validated transaction dict. -/
def txArgs (tx : JVal) : List JVal :=
  match tx with
  | .jobj fs =>
    match lookupField fs "args" with
    | some (.jarr xs) => xs
    | _ => []
  | _ => []

/-- The `send_cmd` list literal for one transaction (the `if tx['args']:
send_cmd.extend(tx['args'])` step appends the argument values; extending
with an empty list is the identity, matching the skipped falsy branch). -/
def sendCmd (pk : String) (addr : JVal) (tx : JVal) : List JVal :=
  [.jstr "cast", .jstr "send", .jstr "--private-key", .jstr pk,
   .jstr "--rpc-url", .jstr RPC_URL, .jstr "--json", addr, txSig tx] ++ txArgs tx

/-- The in-loop shape validation:
`isinstance(tx, dict) and 'function_signature' in tx and 'args' in tx and
isinstance(tx['args'], list)` (the code tests the negation and returns 400). -/
def wellFormedTx (tx : JVal) : Bool :=
  match tx with
  | .jobj fs =>
    (lookupField fs "function_signature").isSome &&
      (match lookupField fs "args" with
       | some (.jarr _) => true
       | _ => false)
  | _ => false

/-- Result of the inner `try` body for one well-formed transaction: either
an outcome is appended (success, or `CalledProcessError` caught and recorded
as failed), or an uncaught exception escapes the loop. -/
inductive TxStep where
  | yields : Outcome → List (List String) → TxStep
  | raises : PyExn → List (List String) → TxStep

/-- The body of the transaction loop for one well-formed transaction:
run the command; `CalledProcessError` is caught and recorded as a failed
outcome with stripped stderr; stdout is parsed and `transactionHash`
extracted for a success outcome; every other exception escapes. -/
def stepTx (exec : List String → ExecResult) (parse : String → Option JVal)
    (pk : String) (addr : JVal) (tx : JVal) : TxStep :=
  match runSub exec (sendCmd pk addr tx) with
  | (.error (.calledProcessError err), inv) => .yields (.failed tx (pystrip err)) inv
  | (.error e, inv) => .raises e inv
  | (.ok out, inv) =>
    match parse out with
    | none => .raises .jsonDecodeError inv
    | some info =>
      match pyIndex info "transactionHash" with
      | .error e => .raises e inv
      | .ok h => .yields (.success tx h) inv

/-- The outcome `stepTx` yields (junk default on the unreachable raise). -/
def outcomeOf (exec : List String → ExecResult) (parse : String → Option JVal)
    (pk : String) (addr : JVal) (tx : JVal) : Outcome :=
  match stepTx exec parse pk addr tx with
  | .yields o _ => o
  | .raises _ _ => .failed tx ""

/-- The commands `stepTx` hands to `subprocess.run`. -/
def invokedOf (exec : List String → ExecResult) (parse : String → Option JVal)
    (pk : String) (addr : JVal) (tx : JVal) : List (List String) :=
  match stepTx exec parse pk addr tx with
  | .yields _ inv => inv
  | .raises _ inv => inv

/-- Whether the loop body yields an outcome (rather than raising). -/
def stepYields (exec : List String → ExecResult) (parse : String → Option JVal)
    (pk : String) (addr : JVal) (tx : JVal) : Bool :=
  match stepTx exec parse pk addr tx with
  | .yields _ _ => true
  | .raises _ _ => false

/-- How the `for i, tx in enumerate(transactions)` loop ends: an early 400
return on a malformed item, an uncaught exception, or the full outcome
list. Each constructor carries the command trace accumulated so far. -/
inductive LoopRes where
  | badIndex : Nat → List (List String) → LoopRes
  | raised : PyExn → List (List String) → LoopRes
  | done : List Outcome → List (List String) → LoopRes

/-- The transaction loop: validate each item's shape in the same pass that
executes it; on a malformed item return 400 naming the index; per-item
command failures are recorded and the loop continues. -/
def txLoop (exec : List String → ExecResult) (parse : String → Option JVal)
    (pk : String) (addr : JVal) :
    List JVal → Nat → List Outcome → List (List String) → LoopRes
  | [], _, acc, tr => .done acc tr
  | tx :: rest, i, acc, tr =>
    if wellFormedTx tx then
      match stepTx exec parse pk addr tx with
      | .yields o inv => txLoop exec parse pk addr rest (i + 1) (acc ++ [o]) (tr ++ inv)
      | .raises e inv => .raised e (tr ++ inv)
    else
      .badIndex i tr

/-- The trace a loop result carries. -/
def LoopRes.traceOf : LoopRes → List (List String)
  | .badIndex _ tr => tr
  | .raised _ tr => tr
  | .done _ tr => tr

/-- The two `except` clauses at the bottom of the handler:
`CalledProcessError` → 400 deployment-failure with stripped stderr; every
other exception → generic 500. -/
def outerCatch : PyExn → List (List String) → SimResult
  | .calledProcessError err, tr => ⟨400, .errWith deployFailedMsg (pystrip err), tr⟩
  | e, tr => ⟨500, .errWith internalErrMsg (exnStr e), tr⟩

/-- Everything after a successful deployment: iterate the `transactions`
value and run the loop; assemble the 200 report on completion. -/
def afterDeploy (exec : List String → ExecResult) (parse : String → Option JVal)
    (pk : String) (gas : Option JVal) (addr : JVal) (txsVal : JVal)
    (tr : List (List String)) : SimResult :=
  match pyIter txsVal with
  | .error e => outerCatch e tr
  | .ok txs =>
    match txLoop exec parse pk addr txs 0 [] tr with
    | .badIndex i tr2 => ⟨400, .err (invalidIndexMsg i), tr2⟩
    | .raised e tr2 => outerCatch e tr2
    | .done os tr2 => ⟨200, .report gas addr os, tr2⟩

/-- The deployment step and onward: run `deploy_cmd`, parse its stdout,
extract `contractAddress` and `gasUsed`, then hand off to the loop; any
exception falls to the outer handlers. -/
def deployPhase (exec : List String → ExecResult) (parse : String → Option JVal)
    (pk : String) (bytecode txsVal : JVal) : SimResult :=
  match runSub exec (deployCmd pk bytecode) with
  | (.error e, tr) => outerCatch e tr
  | (.ok out, tr) =>
    match parse out with
    | none => outerCatch .jsonDecodeError tr
    | some info =>
      match pyIndex info "contractAddress" with
      | .error e => outerCatch e tr
      | .ok addr => afterDeploy exec parse pk (jsonGet info "gasUsed") addr txsVal tr

/-- Truthiness of the module-level `PRIVATE_KEY` (unset variable → `None`;
an empty string is falsy as well). -/
def pkTruthy : Option String → Bool
  | none => false
  | some s => !(s == "")

/-- The `/simulate` handler. Mirrors the source top to bottom: 500 when the
private key is unset; parse the body (`request.json` raising on a
non-JSON body, modelled by `none`, lands in the generic handler);
`data.get` on a non-dict raises `AttributeError`; falsy `bytecode` → 400;
otherwise deploy and run the transaction loop. -/
def simulate (privateKey : Option String) (body : Option JVal)
    (exec : List String → ExecResult) (parse : String → Option JVal) : SimResult :=
  if pkTruthy privateKey then
    match body with
    | none => outerCatch .badRequest []
    | some data =>
      match data with
      | .jobj fs =>
        if truthy ((lookupField fs "bytecode").getD .jnull) then
          deployPhase exec parse (privateKey.getD "")
            ((lookupField fs "bytecode").getD .jnull)
            ((lookupField fs "transactions").getD (.jarr []))
        else ⟨400, .err missingBytecodeMsg, []⟩
      | _ => outerCatch .attributeError []
  else ⟨500, .err pkMissingMsg, []⟩

/-- A request body carrying `bytecode` and `transactions`. -/
def mkBody (bc : String) (txs : List JVal) : JVal :=
  .jobj [("bytecode", .jstr bc), ("transactions", .jarr txs)]

/-- A transaction is benign when it passes shape validation and its loop
body yields an outcome (success or a caught command failure). -/
def benign (exec : List String → ExecResult) (parse : String → Option JVal)
    (pk : String) (addr : JVal) (tx : JVal) : Bool :=
  wellFormedTx tx && stepYields exec parse pk addr tx

/-- Concrete deployment stdout record used to evaluate theorems on explicit
inputs. -/
def dinfoW : JVal :=
  .jobj [("contractAddress", .jstr "0xabc"), ("gasUsed", .jnum 21000)]

/-- Concrete transaction stdout record (a transaction hash). -/
def txinfoW : JVal := .jobj [("transactionHash", .jstr "0xh")]

/-- Concrete parse oracle: deployment stdout `"D"` and transaction stdout
`"T"` parse; everything else fails to parse. -/
def parseW : String → Option JVal :=
  fun s => if s = "D" then some dinfoW else if s = "T" then some txinfoW else none

/-- A well-formed transaction with no arguments. -/
def wtx0 : JVal :=
  .jobj [("function_signature", .jstr "f0()"), ("args", .jarr [])]

/-- A well-formed transaction with one argument. -/
def wtx1 : JVal :=
  .jobj [("function_signature", .jstr "f1(uint256)"), ("args", .jarr [.jstr "7"])]

/-- A well-formed transaction used as the failing middle item. -/
def wtxF : JVal :=
  .jobj [("function_signature", .jstr "boom()"), ("args", .jarr [])]

/-- A malformed transaction item: a dict missing `args`. -/
def wtxBad : JVal := .jobj [("function_signature", .jstr "nope()")]

/-- The stringified command of `wtx0` against the witness contract. -/
def wcmd0 : List String :=
  ["cast", "send", "--private-key", "k", "--rpc-url", RPC_URL, "--json",
   "0xabc", "f0()"]

/-- The stringified command of `wtx1` against the witness contract. -/
def wcmd1 : List String :=
  ["cast", "send", "--private-key", "k", "--rpc-url", RPC_URL, "--json",
   "0xabc", "f1(uint256)", "7"]

/-- The stringified command of `wtxF` against the witness contract. -/
def wcmdF : List String :=
  ["cast", "send", "--private-key", "k", "--rpc-url", RPC_URL, "--json",
   "0xabc", "boom()"]

/-- Executor for C1's witness: deployment and ordinary transactions succeed,
the `wtxF` command exits non-zero with stderr `" boom "`. -/
def c1Exec : List String → ExecResult :=
  fun c =>
    if c = deployStrs "k" "0x60" then .exitOk "D"
    else if c = wcmdF then .exitNonZero " boom "
    else .exitOk "T"

/-- Executor for C2's witness: every command succeeds. -/
def c2Exec : List String → ExecResult :=
  fun c => if c = deployStrs "k" "0x60" then .exitOk "D" else .exitOk "T"

/-- Executor for C3's witness: every command succeeds. -/
def c3Exec : List String → ExecResult :=
  fun c => if c = deployStrs "k" "0x60" then .exitOk "D" else .exitOk "T"

/-- Executor for C4's witness: the deployment command itself fails. -/
def c4Exec : List String → ExecResult := fun _ => .exitNonZero " X "

/-- Executor for C6: deployment succeeds, every transaction command exceeds
its 30-second timeout. -/
def c6Exec : List String → ExecResult :=
  fun c => if c = deployStrs "k" "0x60" then .exitOk "D" else .timedOut

/-- Executor for C10's witness: every command succeeds. -/
def c10Exec : List String → ExecResult :=
  fun c => if c = deployStrs "k" "0x60" then .exitOk "D" else .exitOk "T"

/-- When the loop body yields, it yields exactly `outcomeOf` and
`invokedOf`. -/
theorem stepTx_eq_of_yields {exec : List String → ExecResult}
    {parse : String → Option JVal} {pk : String} {addr tx : JVal}
    (h : stepYields exec parse pk addr tx = true) :
    stepTx exec parse pk addr tx =
      .yields (outcomeOf exec parse pk addr tx) (invokedOf exec parse pk addr tx) := by
  unfold stepYields at h
  unfold outcomeOf invokedOf
  cases hs : stepTx exec parse pk addr tx with
  | yields o inv => simp
  | raises e inv => rw [hs] at h; simp at h

/-- Every outcome the loop body produces carries the input transaction. -/
theorem outcomeOf_transaction (exec : List String → ExecResult)
    (parse : String → Option JVal) (pk : String) (addr tx : JVal) :
    (outcomeOf exec parse pk addr tx).transaction = tx := by
  unfold outcomeOf stepTx
  rcases hr : runSub exec (sendCmd pk addr tx) with ⟨res, inv⟩
  match res with
  | .error (.calledProcessError err) => simp [Outcome.transaction]
  | .error .badRequest => simp [Outcome.transaction]
  | .error .attributeError => simp [Outcome.transaction]
  | .error .typeError => simp [Outcome.transaction]
  | .error (.keyError k) => simp [Outcome.transaction]
  | .error .jsonDecodeError => simp [Outcome.transaction]
  | .error .timeoutExpired => simp [Outcome.transaction]
  | .error .fileNotFoundError => simp [Outcome.transaction]
  | .ok out =>
    cases hp : parse out with
    | none => simp [hp, Outcome.transaction]
    | some info =>
      cases hi : pyIndex info "transactionHash" with
      | error e => simp [hp, hi, Outcome.transaction]
      | ok h => simp [hp, hi, Outcome.transaction]

/-- A benign prefix of the transaction list is consumed by the loop,
appending one outcome per item and its invoked commands to the trace. -/
theorem txLoop_append (exec : List String → ExecResult)
    (parse : String → Option JVal) (pk : String) (addr : JVal)
    (txs₁ txs₂ : List JVal) (i : Nat) (acc : List Outcome)
    (tr : List (List String))
    (h : txs₁.all (benign exec parse pk addr) = true) :
    txLoop exec parse pk addr (txs₁ ++ txs₂) i acc tr =
      txLoop exec parse pk addr txs₂ (i + txs₁.length)
        (acc ++ txs₁.map (outcomeOf exec parse pk addr))
        (tr ++ (txs₁.map (invokedOf exec parse pk addr)).flatten) := by
  induction txs₁ generalizing i acc tr with
  | nil => simp
  | cons tx rest ih =>
    simp only [List.all_cons, Bool.and_eq_true, benign] at h
    obtain ⟨⟨hwf, hy⟩, hrest⟩ := h
    rw [List.cons_append]
    show txLoop exec parse pk addr (tx :: (rest ++ txs₂)) i acc tr = _
    rw [txLoop, if_pos hwf, stepTx_eq_of_yields hy]
    show txLoop exec parse pk addr (rest ++ txs₂) (i + 1)
        (acc ++ [outcomeOf exec parse pk addr tx])
        (tr ++ invokedOf exec parse pk addr tx) = _
    rw [ih (i + 1) (acc ++ [outcomeOf exec parse pk addr tx])
        (tr ++ invokedOf exec parse pk addr tx) hrest]
    simp only [List.map_cons, List.flatten_cons, List.length_cons, List.append_assoc,
      List.cons_append, List.singleton_append]
    congr 1
    omega

/-- A fully benign transaction list runs to completion. -/
theorem txLoop_done (exec : List String → ExecResult)
    (parse : String → Option JVal) (pk : String) (addr : JVal)
    (txs : List JVal) (i : Nat) (acc : List Outcome) (tr : List (List String))
    (h : txs.all (benign exec parse pk addr) = true) :
    txLoop exec parse pk addr txs i acc tr =
      .done (acc ++ txs.map (outcomeOf exec parse pk addr))
        (tr ++ (txs.map (invokedOf exec parse pk addr)).flatten) := by
  have h0 := txLoop_append exec parse pk addr txs [] i acc tr h
  rw [List.append_nil] at h0
  rw [h0, txLoop]

/-- Reduction of `simulate` to the transaction loop under a truthy key,
truthy string bytecode, and a successful, parseable deployment. -/
theorem simulate_deploy_ok {exec : List String → ExecResult}
    {parse : String → Option JVal} {pk bc dout : String} {dinfo addr : JVal}
    (txs : List JVal)
    (hpk : pk ≠ "") (hbc : bc ≠ "")
    (hd : exec (deployStrs pk bc) = ExecResult.exitOk dout)
    (hp : parse dout = some dinfo)
    (ha : pyIndex dinfo "contractAddress" = Except.ok addr) :
    simulate (some pk) (some (mkBody bc txs)) exec parse =
      (match txLoop exec parse pk addr txs 0 [] [deployStrs pk bc] with
       | .badIndex i tr2 => ⟨400, .err (invalidIndexMsg i), tr2⟩
       | .raised e tr2 => outerCatch e tr2
       | .done os tr2 => ⟨200, .report (jsonGet dinfo "gasUsed") addr os, tr2⟩) := by
  have hpk2 : pkTruthy (some pk) = true := by
    simp [pkTruthy, hpk]
  have hbc2 : truthy (JVal.jstr bc) = true := by
    simp [truthy, hbc]
  have hts : toStrings (deployCmd pk (JVal.jstr bc)) = some (deployStrs pk bc) := rfl
  have hrs : runSub exec (deployCmd pk (JVal.jstr bc)) =
      (Except.ok dout, [deployStrs pk bc]) := by
    simp [runSub, hts, hd]
  simp [simulate, mkBody, lookupField, hpk2, hbc2, hrs, hp, ha, deployPhase,
    afterDeploy, pyIter]

/-- A non-zero exit of the transaction command is caught and recorded as a
failed outcome carrying the stripped stderr. -/
theorem stepTx_of_fail {exec : List String → ExecResult}
    {parse : String → Option JVal} {pk : String} {addr tx : JVal}
    {scmd : List String} {err : String}
    (hcmd : toStrings (sendCmd pk addr tx) = some scmd)
    (hfail : exec scmd = ExecResult.exitNonZero err) :
    stepTx exec parse pk addr tx = .yields (.failed tx (pystrip err)) [scmd] := by
  simp [stepTx, runSub, hcmd, hfail]

/-- A successful transaction command with parseable stdout yields a success
outcome carrying the extracted transaction hash. -/
theorem stepTx_of_ok {exec : List String → ExecResult}
    {parse : String → Option JVal} {pk : String} {addr tx info h : JVal}
    {scmd : List String} {out : String}
    (hcmd : toStrings (sendCmd pk addr tx) = some scmd)
    (hok : exec scmd = ExecResult.exitOk out)
    (hp : parse out = some info)
    (hh : pyIndex info "transactionHash" = Except.ok h) :
    stepTx exec parse pk addr tx = .yields (.success tx h) [scmd] := by
  simp [stepTx, runSub, hcmd, hok, hp, hh]

/-- A transaction command that exceeds its timeout raises `TimeoutExpired`,
which the inner handler (catching only `CalledProcessError`) lets escape. -/
theorem stepTx_of_timeout {exec : List String → ExecResult}
    {parse : String → Option JVal} {pk : String} {addr tx : JVal}
    {scmd : List String}
    (hcmd : toStrings (sendCmd pk addr tx) = some scmd)
    (ht : exec scmd = ExecResult.timedOut) :
    stepTx exec parse pk addr tx = .raises .timeoutExpired [scmd] := by
  simp [stepTx, runSub, hcmd, ht]

/-- The loop only ever appends to the incoming command trace. -/
theorem txLoop_traceOf_prefix (exec : List String → ExecResult)
    (parse : String → Option JVal) (pk : String) (addr : JVal) :
    ∀ (txs : List JVal) (i : Nat) (acc : List Outcome) (tr : List (List String)),
      ∃ s, (txLoop exec parse pk addr txs i acc tr).traceOf = tr ++ s := by
  intro txs
  induction txs with
  | nil => intro i acc tr; exact ⟨[], by simp [txLoop, LoopRes.traceOf]⟩
  | cons tx rest ih =>
    intro i acc tr
    rw [txLoop]
    by_cases hwf : wellFormedTx tx = true
    · rw [if_pos hwf]
      cases hs : stepTx exec parse pk addr tx with
      | yields o inv =>
        obtain ⟨s, hsx⟩ := ih (i + 1) (acc ++ [o]) (tr ++ inv)
        exact ⟨inv ++ s, by rw [hsx, List.append_assoc]⟩
      | raises e inv => exact ⟨inv, by simp [LoopRes.traceOf]⟩
    · rw [if_neg hwf]
      exact ⟨[], by simp [LoopRes.traceOf]⟩

/-- Whatever the executor does, the first command the deployment phase hands
to `subprocess.run` is the stringified deployment command. -/
theorem deployPhase_trace_head (exec : List String → ExecResult)
    (parse : String → Option JVal) (pk : String) (bytecode txsVal : JVal)
    (scmd : List String)
    (hcmd : toStrings (deployCmd pk bytecode) = some scmd) :
    (deployPhase exec parse pk bytecode txsVal).trace.head? = some scmd := by
  cases hx : exec scmd with
  | exitOk out =>
    have hrs : runSub exec (deployCmd pk bytecode) = (Except.ok out, [scmd]) := by
      simp [runSub, hcmd, hx]
    cases hpo : parse out with
    | none => simp [deployPhase, hrs, hpo, outerCatch]
    | some info =>
      cases hi : pyIndex info "contractAddress" with
      | error e => cases e <;> simp [deployPhase, hrs, hpo, hi, outerCatch]
      | ok addr =>
        cases hit : pyIter txsVal with
        | error e =>
          cases e <;> simp [deployPhase, hrs, hpo, hi, afterDeploy, hit, outerCatch]
        | ok txs =>
          obtain ⟨s, hs⟩ :=
            txLoop_traceOf_prefix exec parse pk addr txs 0 [] [scmd]
          cases hl : txLoop exec parse pk addr txs 0 [] [scmd] with
          | badIndex i tr2 =>
            rw [hl] at hs; simp [LoopRes.traceOf] at hs
            simp [deployPhase, hrs, hpo, hi, afterDeploy, hit, hl, hs]
          | raised e tr2 =>
            rw [hl] at hs; simp [LoopRes.traceOf] at hs
            cases e <;>
              simp [deployPhase, hrs, hpo, hi, afterDeploy, hit, hl, outerCatch, hs]
          | done os tr2 =>
            rw [hl] at hs; simp [LoopRes.traceOf] at hs
            simp [deployPhase, hrs, hpo, hi, afterDeploy, hit, hl, hs]
  | exitNonZero err =>
    have hrs : runSub exec (deployCmd pk bytecode) =
        (Except.error (.calledProcessError err), [scmd]) := by
      simp [runSub, hcmd, hx]
    simp [deployPhase, hrs, outerCatch]
  | timedOut =>
    have hrs : runSub exec (deployCmd pk bytecode) =
        (Except.error .timeoutExpired, [scmd]) := by
      simp [runSub, hcmd, hx]
    simp [deployPhase, hrs, outerCatch]
  | fileNotFound =>
    have hrs : runSub exec (deployCmd pk bytecode) =
        (Except.error .fileNotFoundError, [scmd]) := by
      simp [runSub, hcmd, hx]
    simp [deployPhase, hrs, outerCatch]

/-- Running the loop across a benign prefix, one yielding transaction, and a
benign suffix produces the concatenated outcome list. -/
theorem txLoop_mid (exec : List String → ExecResult)
    (parse : String → Option JVal) (pk : String) (addr : JVal)
    (pre post : List JVal) (txF : JVal) (o : Outcome)
    (inv : List (List String)) (i : Nat) (acc : List Outcome)
    (tr : List (List String))
    (hpre : pre.all (benign exec parse pk addr) = true)
    (hwfF : wellFormedTx txF = true)
    (hstep : stepTx exec parse pk addr txF = .yields o inv)
    (hpost : post.all (benign exec parse pk addr) = true) :
    txLoop exec parse pk addr (pre ++ txF :: post) i acc tr =
      .done (acc ++ (pre.map (outcomeOf exec parse pk addr) ++ (o ::
          post.map (outcomeOf exec parse pk addr))))
        (tr ++ ((pre.map (invokedOf exec parse pk addr)).flatten ++ (inv ++
          (post.map (invokedOf exec parse pk addr)).flatten))) := by
  rw [txLoop_append exec parse pk addr pre (txF :: post) i acc tr hpre,
    txLoop, if_pos hwfF, hstep]
  show txLoop exec parse pk addr post (i + pre.length + 1)
      ((acc ++ pre.map (outcomeOf exec parse pk addr)) ++ [o])
      ((tr ++ (pre.map (invokedOf exec parse pk addr)).flatten) ++ inv) = _
  rw [txLoop_done exec parse pk addr post _ _ _ hpost]
  simp [List.append_assoc]

/-- Running the loop across a benign prefix up to a well-formed transaction
whose body raises aborts the whole loop with that exception. -/
theorem txLoop_mid_raises (exec : List String → ExecResult)
    (parse : String → Option JVal) (pk : String) (addr : JVal)
    (pre post : List JVal) (txT : JVal) (e : PyExn)
    (inv : List (List String)) (i : Nat) (acc : List Outcome)
    (tr : List (List String))
    (hpre : pre.all (benign exec parse pk addr) = true)
    (hwfT : wellFormedTx txT = true)
    (hstep : stepTx exec parse pk addr txT = .raises e inv) :
    txLoop exec parse pk addr (pre ++ txT :: post) i acc tr =
      .raised e (tr ++ ((pre.map (invokedOf exec parse pk addr)).flatten ++ inv)) := by
  rw [txLoop_append exec parse pk addr pre (txT :: post) i acc tr hpre,
    txLoop, if_pos hwfT, hstep]
  simp [List.append_assoc]

/-- A malformed item after a benign prefix makes `simulate` return 400
naming its index, with only the deployment and the prefix's commands in the
trace. -/
theorem simulate_badIndex (pk bc dout : String) (dinfo addr bad : JVal)
    (pre post : List JVal)
    (exec : List String → ExecResult) (parse : String → Option JVal)
    (hpk : pk ≠ "") (hbc : bc ≠ "")
    (hd : exec (deployStrs pk bc) = ExecResult.exitOk dout)
    (hp : parse dout = some dinfo)
    (ha : pyIndex dinfo "contractAddress" = Except.ok addr)
    (hpre : pre.all (benign exec parse pk addr) = true)
    (hbad : wellFormedTx bad = false) :
    simulate (some pk) (some (mkBody bc (pre ++ bad :: post))) exec parse =
      ⟨400, .err (invalidIndexMsg pre.length),
        deployStrs pk bc :: (pre.map (invokedOf exec parse pk addr)).flatten⟩ := by
  rw [simulate_deploy_ok (pre ++ bad :: post) hpk hbc hd hp ha,
    txLoop_append exec parse pk addr pre (bad :: post) 0 [] [deployStrs pk bc] hpre,
    txLoop, if_neg (by simp [hbad])]
  simp

/-- C2: a request whose transaction list has a malformed item at index `i`
(after a benign well-formed prefix) returns 400 identifying index `i`, the
response carries no outcomes at all, and — because validation happens
per-item inside the execution loop — every well-formed transaction before
`i` has already had its command executed (it is in the invocation trace). -/
theorem claim_C2 (pk bc dout : String) (dinfo addr bad : JVal)
    (pre post : List JVal)
    (exec : List String → ExecResult) (parse : String → Option JVal)
    (r : SimResult)
    (hpk : pk ≠ "") (hbc : bc ≠ "")
    (hd : exec (deployStrs pk bc) = ExecResult.exitOk dout)
    (hp : parse dout = some dinfo)
    (ha : pyIndex dinfo "contractAddress" = Except.ok addr)
    (hpre : pre.all (benign exec parse pk addr) = true)
    (hbad : wellFormedTx bad = false)
    (hr : r = simulate (some pk) (some (mkBody bc (pre ++ bad :: post))) exec parse) :
    r.status = 400 ∧ r.body = .err (invalidIndexMsg pre.length) ∧
    r.body.hasOutcomes = false ∧
    r.trace = deployStrs pk bc :: (pre.map (invokedOf exec parse pk addr)).flatten := by
  subst hr
  rw [simulate_badIndex pk bc dout dinfo addr bad pre post exec parse hpk hbc
    hd hp ha hpre hbad]
  exact ⟨rfl, rfl, rfl, rfl⟩

/-- Witness for C2: a well-formed first transaction, a malformed second one
(missing `args`), a well-formed third one; the request fails with 400 naming
index 1 and the first transaction's command was already executed. -/
theorem claim_C2_witness :
    ("k" : String) ≠ "" ∧ ("0x60" : String) ≠ "" ∧
    c2Exec (deployStrs "k" "0x60") = ExecResult.exitOk "D" ∧
    parseW "D" = some dinfoW ∧
    pyIndex dinfoW "contractAddress" = Except.ok (JVal.jstr "0xabc") ∧
    [wtx0].all (benign c2Exec parseW "k" (JVal.jstr "0xabc")) = true ∧
    wellFormedTx wtxBad = false ∧
    ((simulate (some "k") (some (mkBody "0x60" ([wtx0] ++ wtxBad :: [wtx1])))
        c2Exec parseW).status = 400 ∧
     (simulate (some "k") (some (mkBody "0x60" ([wtx0] ++ wtxBad :: [wtx1])))
        c2Exec parseW).body = .err (invalidIndexMsg [wtx0].length) ∧
     (simulate (some "k") (some (mkBody "0x60" ([wtx0] ++ wtxBad :: [wtx1])))
        c2Exec parseW).body.hasOutcomes = false ∧
     (simulate (some "k") (some (mkBody "0x60" ([wtx0] ++ wtxBad :: [wtx1])))
        c2Exec parseW).trace = deployStrs "k" "0x60" ::
          ([wtx0].map (invokedOf c2Exec parseW "k" (JVal.jstr "0xabc"))).flatten) :=
  ⟨by decide, by decide, rfl, rfl, rfl, rfl, rfl,
   claim_C2 "k" "0x60" "D" dinfoW (JVal.jstr "0xabc") wtxBad [wtx0] [wtx1]
     c2Exec parseW _ (by decide) (by decide) rfl rfl rfl rfl rfl rfl⟩

/-- C3: with a successful deployment and an all-well-formed, all-yielding
transaction list of length `n`, the 200 report's `outcomes` has length `n`,
preserves input order, and each entry's `transaction` field is the
corresponding input transaction. -/
theorem claim_C3 (pk bc dout : String) (dinfo addr : JVal) (txs : List JVal)
    (exec : List String → ExecResult) (parse : String → Option JVal)
    (r : SimResult)
    (hpk : pk ≠ "") (hbc : bc ≠ "")
    (hd : exec (deployStrs pk bc) = ExecResult.exitOk dout)
    (hp : parse dout = some dinfo)
    (ha : pyIndex dinfo "contractAddress" = Except.ok addr)
    (hwf : txs.all (benign exec parse pk addr) = true)
    (hr : r = simulate (some pk) (some (mkBody bc txs)) exec parse) :
    r.status = 200 ∧ r.body.outcomes.length = txs.length ∧
    r.body.outcomes.map Outcome.transaction = txs := by
  subst hr
  rw [simulate_deploy_ok txs hpk hbc hd hp ha,
    txLoop_done exec parse pk addr txs 0 [] [deployStrs pk bc] hwf]
  have hco : Outcome.transaction ∘ outcomeOf exec parse pk addr = id := by
    funext tx
    simp [Function.comp, outcomeOf_transaction]
  refine ⟨rfl, ?_, ?_⟩
  · simp [RespBody.outcomes]
  · simp [RespBody.outcomes, List.map_map, hco]

/-- Witness for C3 at a concrete two-transaction request: both succeed and
the report pairs each outcome with its input transaction in order. -/
theorem claim_C3_witness :
    ("k" : String) ≠ "" ∧ ("0x60" : String) ≠ "" ∧
    c3Exec (deployStrs "k" "0x60") = ExecResult.exitOk "D" ∧
    parseW "D" = some dinfoW ∧
    pyIndex dinfoW "contractAddress" = Except.ok (JVal.jstr "0xabc") ∧
    [wtx0, wtx1].all (benign c3Exec parseW "k" (JVal.jstr "0xabc")) = true ∧
    ((simulate (some "k") (some (mkBody "0x60" [wtx0, wtx1])) c3Exec parseW).status
        = 200 ∧
     (simulate (some "k") (some (mkBody "0x60" [wtx0, wtx1]))
        c3Exec parseW).body.outcomes.length = [wtx0, wtx1].length ∧
     (simulate (some "k") (some (mkBody "0x60" [wtx0, wtx1]))
        c3Exec parseW).body.outcomes.map Outcome.transaction = [wtx0, wtx1]) :=
  ⟨by decide, by decide, rfl, rfl, rfl, rfl,
   claim_C3 "k" "0x60" "D" dinfoW (JVal.jstr "0xabc") [wtx0, wtx1] c3Exec parseW
     _ (by decide) (by decide) rfl rfl rfl rfl rfl⟩

/-- C4: when the deployment command exits non-zero with stderr `X`, the
response is 400, its `details` field is `X` stripped of surrounding
whitespace (so it carries the captured stderr text), the body has no
`outcomes` field, and no transaction command is ever invoked — the trace
holds exactly the one deployment command. -/
theorem claim_C4 (pk bc X : String) (txs : List JVal)
    (exec : List String → ExecResult) (parse : String → Option JVal)
    (r : SimResult)
    (hpk : pk ≠ "") (hbc : bc ≠ "")
    (hd : exec (deployStrs pk bc) = ExecResult.exitNonZero X)
    (hr : r = simulate (some pk) (some (mkBody bc txs)) exec parse) :
    r.status = 400 ∧ r.body = .errWith deployFailedMsg (pystrip X) ∧
    r.body.details = some (pystrip X) ∧
    r.body.hasOutcomes = false ∧ r.trace = [deployStrs pk bc] := by
  subst hr
  have hpk2 : pkTruthy (some pk) = true := by simp [pkTruthy, hpk]
  have hbc2 : truthy (JVal.jstr bc) = true := by simp [truthy, hbc]
  have hts : toStrings (deployCmd pk (JVal.jstr bc)) = some (deployStrs pk bc) := rfl
  have hrs : runSub exec (deployCmd pk (JVal.jstr bc)) =
      (Except.error (.calledProcessError X), [deployStrs pk bc]) := by
    simp [runSub, hts, hd]
  simp [simulate, mkBody, lookupField, hpk2, hbc2, deployPhase, hrs, outerCatch,
    RespBody.hasOutcomes, RespBody.details]

/-- Witness for C4: a deployment failure with stderr `" X "` produces 400
with details `"X"`, no outcomes, and a trace of exactly one command. -/
theorem claim_C4_witness :
    ("k" : String) ≠ "" ∧ ("0x60" : String) ≠ "" ∧
    c4Exec (deployStrs "k" "0x60") = ExecResult.exitNonZero " X " ∧
    ((simulate (some "k") (some (mkBody "0x60" [wtx0])) c4Exec parseW).status
        = 400 ∧
     (simulate (some "k") (some (mkBody "0x60" [wtx0])) c4Exec parseW).body =
        .errWith deployFailedMsg (pystrip " X ") ∧
     (simulate (some "k") (some (mkBody "0x60" [wtx0])) c4Exec parseW).body.details
        = some (pystrip " X ") ∧
     (simulate (some "k") (some (mkBody "0x60" [wtx0]))
        c4Exec parseW).body.hasOutcomes = false ∧
     (simulate (some "k") (some (mkBody "0x60" [wtx0])) c4Exec parseW).trace =
        [deployStrs "k" "0x60"]) :=
  ⟨by decide, by decide, rfl,
   claim_C4 "k" "0x60" " X " [wtx0] c4Exec parseW _ (by decide) (by decide)
     rfl rfl⟩

/-- C5: a request whose `bytecode` key is absent, or maps to the empty
string, is rejected with 400 before any external command is invoked: the
trace is empty. -/
theorem claim_C5 (pk : String) (fs : List (String × JVal))
    (exec : List String → ExecResult) (parse : String → Option JVal)
    (hpk : pk ≠ "")
    (hbc : lookupField fs "bytecode" = none ∨
      lookupField fs "bytecode" = some (JVal.jstr "")) :
    simulate (some pk) (some (JVal.jobj fs)) exec parse =
      ⟨400, .err missingBytecodeMsg, []⟩ := by
  have hpk2 : pkTruthy (some pk) = true := by simp [pkTruthy, hpk]
  rcases hbc with h | h <;> simp [simulate, hpk2, h, truthy]

/-- Witness for C5: a request with only `transactions` (no `bytecode`) gets
400 and an empty command trace. -/
theorem claim_C5_witness :
    ("k" : String) ≠ "" ∧
    lookupField [("transactions", JVal.jarr [])] "bytecode" = none ∧
    simulate (some "k") (some (JVal.jobj [("transactions", JVal.jarr [])]))
        (fun _ => ExecResult.exitOk "") (fun _ => none) =
      ⟨400, .err missingBytecodeMsg, []⟩ :=
  ⟨by decide, rfl,
   claim_C5 "k" [("transactions", JVal.jarr [])] (fun _ => ExecResult.exitOk "")
     (fun _ => none) (by decide) (Or.inl rfl)⟩

/-- C8: when the signing credential was never configured (unset, or set to
the empty string), every request gets 500 with the configuration-error
message and no external command is invoked, regardless of the request's
content. -/
theorem claim_C8 (pkOpt : Option String) (body : Option JVal)
    (exec : List String → ExecResult) (parse : String → Option JVal)
    (hpk : pkOpt = none ∨ pkOpt = some "") :
    simulate pkOpt body exec parse = ⟨500, .err pkMissingMsg, []⟩ := by
  rcases hpk with h | h <;> subst h <;> simp [simulate, pkTruthy]

/-- Witness for C8: with no key configured, even a fully valid request gets
500 and no command runs. -/
theorem claim_C8_witness :
    ((none : Option String) = none ∨ (none : Option String) = some "") ∧
    simulate none (some (mkBody "0x60" [wtx0]))
        (fun _ => ExecResult.exitOk "") (fun _ => none) =
      ⟨500, .err pkMissingMsg, []⟩ :=
  ⟨Or.inl rfl,
   claim_C8 none (some (mkBody "0x60" [wtx0])) (fun _ => ExecResult.exitOk "")
     (fun _ => none) (Or.inl rfl)⟩

/-- Only dicts can be well-formed transactions: the same `isinstance(tx,
dict)` conjunct of the per-item check rejects any non-object item. -/
theorem wellFormedTx_eq_false_of_not_dict {bad : JVal} (h : isDict bad = false) :
    wellFormedTx bad = false := by
  cases bad <;> simp_all [isDict, wellFormedTx]

/-- C10: a transaction item that is not a JSON object at all (here after a
benign well-formed prefix) fails the same per-item shape validation, and the
request is rejected with 400 naming that item's index, with no outcomes. -/
theorem claim_C10 (pk bc dout : String) (dinfo addr bad : JVal)
    (pre post : List JVal)
    (exec : List String → ExecResult) (parse : String → Option JVal)
    (r : SimResult)
    (hpk : pk ≠ "") (hbc : bc ≠ "")
    (hd : exec (deployStrs pk bc) = ExecResult.exitOk dout)
    (hp : parse dout = some dinfo)
    (ha : pyIndex dinfo "contractAddress" = Except.ok addr)
    (hpre : pre.all (benign exec parse pk addr) = true)
    (hbad : isDict bad = false)
    (hr : r = simulate (some pk) (some (mkBody bc (pre ++ bad :: post))) exec parse) :
    wellFormedTx bad = false ∧
    r.status = 400 ∧ r.body = .err (invalidIndexMsg pre.length) ∧
    r.body.hasOutcomes = false := by
  subst hr
  have hwf := wellFormedTx_eq_false_of_not_dict hbad
  rw [simulate_badIndex pk bc dout dinfo addr bad pre post exec parse hpk hbc
    hd hp ha hpre hwf]
  exact ⟨hwf, rfl, rfl, rfl⟩

/-- Witness for C10: the string item `"zap"` at index 1 is rejected with 400
naming index 1. -/
theorem claim_C10_witness :
    ("k" : String) ≠ "" ∧ ("0x60" : String) ≠ "" ∧
    c10Exec (deployStrs "k" "0x60") = ExecResult.exitOk "D" ∧
    parseW "D" = some dinfoW ∧
    pyIndex dinfoW "contractAddress" = Except.ok (JVal.jstr "0xabc") ∧
    [wtx0].all (benign c10Exec parseW "k" (JVal.jstr "0xabc")) = true ∧
    isDict (JVal.jstr "zap") = false ∧
    (wellFormedTx (JVal.jstr "zap") = false ∧
     (simulate (some "k") (some (mkBody "0x60" ([wtx0] ++ JVal.jstr "zap" :: [])))
        c10Exec parseW).status = 400 ∧
     (simulate (some "k") (some (mkBody "0x60" ([wtx0] ++ JVal.jstr "zap" :: [])))
        c10Exec parseW).body = .err (invalidIndexMsg [wtx0].length) ∧
     (simulate (some "k") (some (mkBody "0x60" ([wtx0] ++ JVal.jstr "zap" :: [])))
        c10Exec parseW).body.hasOutcomes = false) :=
  ⟨by decide, by decide, rfl, rfl, rfl, rfl, rfl,
   claim_C10 "k" "0x60" "D" dinfoW (JVal.jstr "0xabc") (JVal.jstr "zap")
     [wtx0] [] c10Exec parseW _ (by decide) (by decide) rfl rfl rfl rfl rfl rfl⟩

/-- C1: a non-zero exit of one transaction's command (after a benign prefix)
is caught for that transaction only: its outcome is
`{status: "failed", error_details: stderr stripped}`, every subsequent
transaction is still executed, and the request returns 200 with the full,
order-preserving outcome list. -/
theorem claim_C1 (pk bc dout err : String) (dinfo addr txF : JVal)
    (pre post : List JVal) (scmd : List String)
    (exec : List String → ExecResult) (parse : String → Option JVal)
    (r : SimResult)
    (hpk : pk ≠ "") (hbc : bc ≠ "")
    (hd : exec (deployStrs pk bc) = ExecResult.exitOk dout)
    (hp : parse dout = some dinfo)
    (ha : pyIndex dinfo "contractAddress" = Except.ok addr)
    (hpre : pre.all (benign exec parse pk addr) = true)
    (hpost : post.all (benign exec parse pk addr) = true)
    (hwfF : wellFormedTx txF = true)
    (hcmd : toStrings (sendCmd pk addr txF) = some scmd)
    (hfail : exec scmd = ExecResult.exitNonZero err)
    (hr : r = simulate (some pk) (some (mkBody bc (pre ++ txF :: post))) exec parse) :
    r.status = 200 ∧
    r.body.outcomes.map Outcome.transaction = pre ++ txF :: post ∧
    r.body.outcomes[pre.length]? = some (Outcome.failed txF (pystrip err)) ∧
    r.body.outcomes.length = pre.length + 1 + post.length := by
  subst hr
  rw [simulate_deploy_ok (pre ++ txF :: post) hpk hbc hd hp ha,
    txLoop_mid exec parse pk addr pre post txF _ _ 0 [] [deployStrs pk bc]
      hpre hwfF (stepTx_of_fail hcmd hfail) hpost]
  have hco : Outcome.transaction ∘ outcomeOf exec parse pk addr = id := by
    funext tx
    simp [Function.comp, outcomeOf_transaction]
  refine ⟨rfl, ?_, ?_, ?_⟩
  · simp [RespBody.outcomes, List.map_map, hco, Outcome.transaction]
  · show (List.map (outcomeOf exec parse pk addr) pre ++
        (Outcome.failed txF (pystrip err) ::
          List.map (outcomeOf exec parse pk addr) post))[pre.length]? = _
    rw [List.getElem?_append_right (by simp)]
    simp
  · simp [RespBody.outcomes]
    omega

/-- Witness for C1: three transactions; the middle one's command fails with
stderr `" boom "`; the report is 200 with outcomes `[success, failed,
success]` and `error_details = "boom"`. -/
theorem claim_C1_witness :
    ("k" : String) ≠ "" ∧ ("0x60" : String) ≠ "" ∧
    c1Exec (deployStrs "k" "0x60") = ExecResult.exitOk "D" ∧
    parseW "D" = some dinfoW ∧
    pyIndex dinfoW "contractAddress" = Except.ok (JVal.jstr "0xabc") ∧
    [wtx0].all (benign c1Exec parseW "k" (JVal.jstr "0xabc")) = true ∧
    [wtx1].all (benign c1Exec parseW "k" (JVal.jstr "0xabc")) = true ∧
    wellFormedTx wtxF = true ∧
    toStrings (sendCmd "k" (JVal.jstr "0xabc") wtxF) = some wcmdF ∧
    c1Exec wcmdF = ExecResult.exitNonZero " boom " ∧
    ((simulate (some "k") (some (mkBody "0x60" ([wtx0] ++ wtxF :: [wtx1])))
        c1Exec parseW).status = 200 ∧
     (simulate (some "k") (some (mkBody "0x60" ([wtx0] ++ wtxF :: [wtx1])))
        c1Exec parseW).body.outcomes.map Outcome.transaction =
          [wtx0] ++ wtxF :: [wtx1] ∧
     (simulate (some "k") (some (mkBody "0x60" ([wtx0] ++ wtxF :: [wtx1])))
        c1Exec parseW).body.outcomes[[wtx0].length]? =
          some (Outcome.failed wtxF (pystrip " boom ")) ∧
     (simulate (some "k") (some (mkBody "0x60" ([wtx0] ++ wtxF :: [wtx1])))
        c1Exec parseW).body.outcomes.length = [wtx0].length + 1 + [wtx1].length) :=
  ⟨by decide, by decide, rfl, rfl, rfl, rfl, rfl, rfl, rfl, rfl,
   claim_C1 "k" "0x60" "D" " boom " dinfoW (JVal.jstr "0xabc") wtxF [wtx0] [wtx1]
     wcmdF c1Exec parseW _ (by decide) (by decide) rfl rfl rfl rfl rfl rfl rfl
     rfl rfl⟩

/-- C6 as stated is false: a transaction whose command exceeds the timeout
does not get an isolated failed outcome with a 200 response; at this
concrete input the whole request fails with 500 and no outcomes. -/
theorem claim_C6_counterexample :
    (simulate (some "k") (some (mkBody "0x60" [wtx0])) c6Exec parseW).status
        = 500 ∧
    (simulate (some "k") (some (mkBody "0x60" [wtx0])) c6Exec parseW).status
        ≠ 200 ∧
    (simulate (some "k") (some (mkBody "0x60" [wtx0]))
        c6Exec parseW).body.hasOutcomes = false :=
  ⟨rfl, by decide, rfl⟩

/-- C6 amended: a transaction command timeout is not isolated. The
`TimeoutExpired` exception escapes the per-transaction handler (which
catches only `CalledProcessError`), so the whole request fails with the
generic 500 response and no outcomes at all. -/
theorem claim_C6_amended (pk bc dout : String) (dinfo addr txT : JVal)
    (pre post : List JVal) (scmd : List String)
    (exec : List String → ExecResult) (parse : String → Option JVal)
    (r : SimResult)
    (hpk : pk ≠ "") (hbc : bc ≠ "")
    (hd : exec (deployStrs pk bc) = ExecResult.exitOk dout)
    (hp : parse dout = some dinfo)
    (ha : pyIndex dinfo "contractAddress" = Except.ok addr)
    (hpre : pre.all (benign exec parse pk addr) = true)
    (hwfT : wellFormedTx txT = true)
    (hcmd : toStrings (sendCmd pk addr txT) = some scmd)
    (ht : exec scmd = ExecResult.timedOut)
    (hr : r = simulate (some pk) (some (mkBody bc (pre ++ txT :: post))) exec parse) :
    r.status = 500 ∧
    r.body = .errWith internalErrMsg (exnStr .timeoutExpired) ∧
    r.body.hasOutcomes = false := by
  subst hr
  rw [simulate_deploy_ok (pre ++ txT :: post) hpk hbc hd hp ha,
    txLoop_mid_raises exec parse pk addr pre post txT _ _ 0 [] [deployStrs pk bc]
      hpre hwfT (stepTx_of_timeout hcmd ht)]
  exact ⟨rfl, rfl, rfl⟩

/-- Witness for the amended C6 at a concrete one-transaction request. -/
theorem claim_C6_amended_witness :
    ("k" : String) ≠ "" ∧ ("0x60" : String) ≠ "" ∧
    c6Exec (deployStrs "k" "0x60") = ExecResult.exitOk "D" ∧
    parseW "D" = some dinfoW ∧
    pyIndex dinfoW "contractAddress" = Except.ok (JVal.jstr "0xabc") ∧
    ([] : List JVal).all (benign c6Exec parseW "k" (JVal.jstr "0xabc")) = true ∧
    wellFormedTx wtx0 = true ∧
    toStrings (sendCmd "k" (JVal.jstr "0xabc") wtx0) = some wcmd0 ∧
    c6Exec wcmd0 = ExecResult.timedOut ∧
    ((simulate (some "k") (some (mkBody "0x60" ([] ++ wtx0 :: []))) c6Exec
        parseW).status = 500 ∧
     (simulate (some "k") (some (mkBody "0x60" ([] ++ wtx0 :: []))) c6Exec
        parseW).body = .errWith internalErrMsg (exnStr .timeoutExpired) ∧
     (simulate (some "k") (some (mkBody "0x60" ([] ++ wtx0 :: []))) c6Exec
        parseW).body.hasOutcomes = false) :=
  ⟨by decide, by decide, rfl, rfl, rfl, rfl, rfl, rfl, rfl,
   claim_C6_amended "k" "0x60" "D" dinfoW (JVal.jstr "0xabc") wtx0 [] []
     wcmd0 c6Exec parseW _ (by decide) (by decide) rfl rfl rfl rfl rfl rfl rfl
     rfl⟩

/-- C7 as stated is false: at this concrete unparseable-body input the
response status is 500, not 400 — the parse failure raises inside the `try`
block and is caught by the generic `except Exception` handler. -/
theorem claim_C7_counterexample :
    (simulate (some "k") none (fun _ => ExecResult.exitOk "")
        (fun _ => none)).status = 500 ∧
    (simulate (some "k") none (fun _ => ExecResult.exitOk "")
        (fun _ => none)).status ≠ 400 :=
  ⟨rfl, by decide⟩

/-- C7 amended: a request body that is not parseable as JSON makes
`request.json` raise inside the `try` block; the generic handler answers
with the 500 internal-error response (not the 400 class used for missing
bytecode or malformed items), and no command is invoked. -/
theorem claim_C7_amended (pk : String)
    (exec : List String → ExecResult) (parse : String → Option JVal)
    (hpk : pk ≠ "") :
    simulate (some pk) none exec parse =
      ⟨500, .errWith internalErrMsg (exnStr .badRequest), []⟩ := by
  have hpk2 : pkTruthy (some pk) = true := by simp [pkTruthy, hpk]
  simp [simulate, hpk2, outerCatch]

/-- Witness for the amended C7. -/
theorem claim_C7_amended_witness :
    ("k" : String) ≠ "" ∧
    simulate (some "k") none (fun _ => ExecResult.exitOk "") (fun _ => none) =
      ⟨500, .errWith internalErrMsg (exnStr .badRequest), []⟩ :=
  ⟨by decide,
   claim_C7_amended "k" (fun _ => ExecResult.exitOk "") (fun _ => none)
     (by decide)⟩

/-- C9: the deployment command vector is ordered signing-credential option,
node-endpoint option, JSON-output flag, creation flag, and finally the
bytecode payload; on every run with a truthy key and bytecode, the first
command handed to the executor is exactly this vector. -/
theorem claim_C9 (pk bc : String) (txs : List JVal)
    (exec : List String → ExecResult) (parse : String → Option JVal)
    (hpk : pk ≠ "") (hbc : bc ≠ "") :
    toStrings (deployCmd pk (JVal.jstr bc)) =
      some ["cast", "send", "--private-key", pk, "--rpc-url",
        "http://127.0.0.1:8545", "--json", "--create", bc] ∧
    (deployStrs pk bc).getLast? = some bc ∧
    (deployStrs pk bc)[7]? = some "--create" ∧
    (simulate (some pk) (some (mkBody bc txs)) exec parse).trace.head? =
      some (deployStrs pk bc) := by
  have hpk2 : pkTruthy (some pk) = true := by simp [pkTruthy, hpk]
  have hbc2 : truthy (JVal.jstr bc) = true := by simp [truthy, hbc]
  refine ⟨rfl, rfl, rfl, ?_⟩
  have hgoal := deployPhase_trace_head exec parse pk (JVal.jstr bc)
    (JVal.jarr txs) (deployStrs pk bc) rfl
  simp [simulate, mkBody, lookupField, hpk2, hbc2, hgoal]

/-- Witness for C9 at a concrete key and bytecode. -/
theorem claim_C9_witness :
    ("k" : String) ≠ "" ∧ ("0x60" : String) ≠ "" ∧
    (toStrings (deployCmd "k" (JVal.jstr "0x60")) =
      some ["cast", "send", "--private-key", "k", "--rpc-url",
        "http://127.0.0.1:8545", "--json", "--create", "0x60"] ∧
     (deployStrs "k" "0x60").getLast? = some "0x60" ∧
     (deployStrs "k" "0x60")[7]? = some "--create" ∧
     (simulate (some "k") (some (mkBody "0x60" []))
        (fun _ => ExecResult.exitOk "") (fun _ => none)).trace.head? =
        some (deployStrs "k" "0x60")) :=
  ⟨by decide, by decide,
   claim_C9 "k" "0x60" [] (fun _ => ExecResult.exitOk "") (fun _ => none)
     (by decide) (by decide)⟩

end BlockchainSimulator
